import Mathlib

/-!
Verification of the log-batching, session and shutdown logic of the
AI-based threat-detection pipeline.  The definitions below are shallow
embeddings of the Python source files:

- websocket_handler.py : global batch buffer, size/age flush triggers,
  the receive loop with its session-renewal check, and the Gemini
  analysis retry loop;
- log_processor.py     : the LogProcessor buffer, its background tick
  and its shutdown drain;
- cloudflare_client.py : the session-creation retry loop;
- main_logger.py       : the signal-driven shutdown handler.

Machine integers do not occur on the verified paths; timestamps are
modelled as natural numbers (seconds).  JSON values are never inspected
by the verified code (only field names are), so record values are a
type parameter V.
-/

namespace ThreatDetection

/-- config.py: LOG_FIELDS_LIST, the whitelist of record fields. -/
def LOG_FIELDS_LIST : List String :=
  ["RayID", "EdgeStartTimestamp", "ClientIP", "ClientRequestHost",
   "ClientRequestMethod", "ClientRequestURI", "EdgeResponseStatus",
   "ClientCountry", "ClientASN", "ClientASNDescription",
   "ClientRequestUserAgent", "FirewallMatchesActions",
   "FirewallMatchesRuleIDs", "FirewallMatchesSources", "WAFAction",
   "WAFRuleID", "WAFRuleMessage", "SecurityLevelAction",
   "ClientRequestReferer", "ClientRequestBytes", "EdgeResponseBytes"]

/-- config.py: MAX_LOG_BATCH_SIZE = 15. -/
def MAX_LOG_BATCH_SIZE : Nat := 15

/-- config.py: BATCH_FLUSH_INTERVAL_SECONDS = 15. -/
def BATCH_FLUSH_INTERVAL_SECONDS : Nat := 15

/-- config.py: SESSION_RENEWAL_INTERVAL_MINUTES = 55. -/
def SESSION_RENEWAL_INTERVAL_MINUTES : Nat := 55

/-- config.py: RETRY_DELAY_SECONDS = 30. -/
def RETRY_DELAY_SECONDS : Nat := 30

/-- A parsed JSON object (one log record): association list from field
names to values.  Values are opaque to the verified code. -/
abbrev RawRec (V : Type) : Type := List (String × V)

/-- websocket_handler.py line 286: the dict comprehension
projecting the whitelisted fields present in the raw entry, in
whitelist order. -/
def processed_event {V : Type} (raw : RawRec V) : RawRec V :=
  LOG_FIELDS_LIST.filterMap (fun f => (List.lookup f raw).map (fun v => (f, v)))

/-- Model of Python json.loads applied to one whole websocket frame,
the frame being viewed through its newline-split lines (some r = a line
that is a well-formed JSON object r, none = a malformed line).
json.loads succeeds exactly when the frame is a single well-formed JSON
document; a frame holding several newline-separated documents raises
JSONDecodeError (extra data), as does any malformed line or an empty
frame. -/
def json_loads {V : Type} : List (Option (RawRec V)) → Option (RawRec V)
  | [some r] => some r
  | _ => none

/-- The module-level batching state of websocket_handler.py:
PROCESSED_LOG_BATCH, LAST_BATCH_FLUSH_TIME, together with the (ghost)
history of batches handed to the analyzer. -/
structure WSState (V : Type) where
  batch : List (RawRec V)
  lastFlush : Nat
  flushed : List (List (RawRec V))
deriving DecidableEq

/-- Initial module state: empty buffer, no flushed batches. -/
def initState {V : Type} : WSState V :=
  { batch := [], lastFlush := 0, flushed := [] }

/-- websocket_handler.py lines 267-276 (process_and_flush_batch): if the
buffer is empty return immediately; otherwise capture the buffer, clear
it, reset LAST_BATCH_FLUSH_TIME, and only then dispatch the captured
batch to the analyzer (recorded in the flushed history). -/
def process_and_flush_batch {V : Type} (now : Nat) (s : WSState V) : WSState V :=
  if s.batch.isEmpty then s
  else { batch := [], lastFlush := now, flushed := s.flushed ++ [s.batch] }

/-- websocket_handler.py lines 278-296 (handle_log_message): json.loads
on the whole frame; on decode failure log and skip; otherwise project
the whitelisted fields, append the projection to the buffer when it is
nonempty, and flush when the buffer has reached MAX_LOG_BATCH_SIZE. -/
def handle_log_message {V : Type} (now : Nat) (msg : List (Option (RawRec V)))
    (s : WSState V) : WSState V :=
  match json_loads msg with
  | none => s
  | some raw =>
    let pe := processed_event raw
    let s1 := if pe.isEmpty then s else { s with batch := s.batch ++ [pe] }
    if MAX_LOG_BATCH_SIZE ≤ s1.batch.length then process_and_flush_batch now s1 else s1

/-- websocket_handler.py lines 337-342: the asyncio.TimeoutError branch
of the receive loop: when the buffer is nonempty and the time since the
last flush has reached BATCH_FLUSH_INTERVAL_SECONDS, flush. -/
def timeout_tick {V : Type} (now : Nat) (s : WSState V) : WSState V :=
  if ¬ s.batch.isEmpty ∧ BATCH_FLUSH_INTERVAL_SECONDS ≤ now - s.lastFlush
  then process_and_flush_batch now s else s

/-- websocket_handler.py lines 371-375: the finally block of
_connect_and_listen: flush the final batch when nonempty. -/
def final_flush {V : Type} (now : Nat) (s : WSState V) : WSState V :=
  if s.batch.isEmpty then s else process_and_flush_batch now s

/-- One externally observable operation on the module batching state. -/
inductive WSOp (V : Type) where
  | msg (now : Nat) (frame : List (Option (RawRec V)))
  | tick (now : Nat)
  | finalFlush (now : Nat)

/-- Run a sequence of operations against the batching state. -/
def runOps {V : Type} : List (WSOp V) → WSState V → WSState V
  | [], s => s
  | WSOp.msg now m :: rest, s => runOps rest (handle_log_message now m s)
  | WSOp.tick now :: rest, s => runOps rest (timeout_tick now s)
  | WSOp.finalFlush now :: rest, s => runOps rest (final_flush now s)

/-- The records that one frame contributes to the batch buffer: the
whitelist projection of the single successfully parsed record, when
that projection is nonempty. -/
def msgRecords {V : Type} (m : List (Option (RawRec V))) : List (RawRec V) :=
  match json_loads m with
  | some raw => if (processed_event raw).isEmpty then [] else [processed_event raw]
  | none => []

/-- All records a sequence of operations adds to the batch buffer. -/
def parsedRecords {V : Type} : List (WSOp V) → List (RawRec V)
  | [] => []
  | WSOp.msg _ m :: rest => msgRecords m ++ parsedRecords rest
  | WSOp.tick _ :: rest => parsedRecords rest
  | WSOp.finalFlush _ :: rest => parsedRecords rest

lemma flush_of_empty {V : Type} (now : Nat) (s : WSState V)
    (h : s.batch.isEmpty) : process_and_flush_batch now s = s := by
  simp [process_and_flush_batch, h]

lemma flush_of_nonempty {V : Type} (now : Nat) (s : WSState V)
    (h : ¬ s.batch.isEmpty) :
    process_and_flush_batch now s
      = { batch := [], lastFlush := now, flushed := s.flushed ++ [s.batch] } := by
  simp [process_and_flush_batch, h]

lemma flush_flat {V : Type} (now : Nat) (s : WSState V) :
    (process_and_flush_batch now s).flushed.flatten ++ (process_and_flush_batch now s).batch
      = s.flushed.flatten ++ s.batch := by
  by_cases h : s.batch.isEmpty
  · rw [flush_of_empty now s h]
  · rw [flush_of_nonempty now s h]; simp

lemma handle_flat {V : Type} (now : Nat) (m : List (Option (RawRec V))) (s : WSState V) :
    (handle_log_message now m s).flushed.flatten ++ (handle_log_message now m s).batch
      = s.flushed.flatten ++ s.batch ++ msgRecords m := by
  cases hload : json_loads m with
  | none => simp [handle_log_message, msgRecords, hload]
  | some raw =>
    by_cases hpe : (processed_event raw).isEmpty
    · by_cases hlen : MAX_LOG_BATCH_SIZE ≤ s.batch.length
      · have hne : ¬ s.batch.isEmpty := by
          intro h
          rw [List.isEmpty_iff.mp h] at hlen
          simp [MAX_LOG_BATCH_SIZE] at hlen
        simp [handle_log_message, msgRecords, hload, hpe, hlen,
              flush_of_nonempty now s hne]
      · simp [handle_log_message, msgRecords, hload, hpe, hlen]
    · by_cases hlen : MAX_LOG_BATCH_SIZE ≤ s.batch.length + 1
      · have hne : ¬ ({ s with batch := s.batch ++ [processed_event raw] } : WSState V).batch.isEmpty := by
          simp
        simp [handle_log_message, msgRecords, hload, hpe, hlen,
              flush_of_nonempty now _ hne]
      · simp [handle_log_message, msgRecords, hload, hpe, hlen]

lemma tick_flat {V : Type} (now : Nat) (s : WSState V) :
    (timeout_tick now s).flushed.flatten ++ (timeout_tick now s).batch
      = s.flushed.flatten ++ s.batch := by
  unfold timeout_tick
  split
  · exact flush_flat now s
  · rfl

lemma final_flat {V : Type} (now : Nat) (s : WSState V) :
    (final_flush now s).flushed.flatten ++ (final_flush now s).batch
      = s.flushed.flatten ++ s.batch := by
  unfold final_flush
  split
  · rfl
  · exact flush_flat now s

lemma runOps_flat {V : Type} (ops : List (WSOp V)) (s : WSState V) :
    (runOps ops s).flushed.flatten ++ (runOps ops s).batch
      = s.flushed.flatten ++ s.batch ++ parsedRecords ops := by
  induction ops generalizing s with
  | nil => simp [runOps, parsedRecords]
  | cons op rest ih =>
    cases op with
    | msg now m =>
      simp only [runOps, parsedRecords]
      rw [ih, handle_flat]
      simp [List.append_assoc]
    | tick now =>
      simp only [runOps, parsedRecords]
      rw [ih, tick_flat]
    | finalFlush now =>
      simp only [runOps, parsedRecords]
      rw [ih, final_flat]

lemma parsedRecords_append {V : Type} (l1 l2 : List (WSOp V)) :
    parsedRecords (l1 ++ l2) = parsedRecords l1 ++ parsedRecords l2 := by
  induction l1 with
  | nil => rfl
  | cons op rest ih => cases op <;> simp [parsedRecords, ih]

lemma runOps_append {V : Type} (l1 l2 : List (WSOp V)) (s : WSState V) :
    runOps (l1 ++ l2) s = runOps l2 (runOps l1 s) := by
  induction l1 generalizing s with
  | nil => rfl
  | cons op rest ih => cases op <;> simp [runOps, ih]

lemma final_flush_batch_nil {V : Type} (now : Nat) (s : WSState V) :
    (final_flush now s).batch = [] ∨ final_flush now s = s ∧ s.batch = [] := by
  by_cases h : s.batch.isEmpty
  · right
    constructor
    · simp [final_flush, h]
    · exact List.isEmpty_iff.mp h
  · left
    simp [final_flush, h, flush_of_nonempty now s h]

/-- C1: every successfully parsed record added to the batch buffer ends
up in exactly one flushed batch: at any point the concatenation of the
flushed batches with the current buffer is exactly the stream of added
records (complete, non-overlapping cover), and after a final flush the
buffer is empty, so the flushed batches alone partition the stream.
This holds because process_and_flush_batch swaps in the fresh buffer
and resets the flush time before the analyzer call is dispatched. -/
theorem batch_partition_lossless {V : Type} (ops : List (WSOp V)) (now : Nat) :
    (runOps ops initState).flushed.flatten ++ (runOps ops initState).batch
        = parsedRecords ops
    ∧ (runOps (ops ++ [WSOp.finalFlush now]) initState).batch = []
    ∧ (runOps (ops ++ [WSOp.finalFlush now]) initState).flushed.flatten
        = parsedRecords ops := by
  have hrun : runOps (ops ++ [WSOp.finalFlush now]) (initState (V := V))
      = final_flush now (runOps ops initState) := by
    rw [runOps_append]; rfl
  have hb : (runOps (ops ++ [WSOp.finalFlush now]) (initState (V := V))).batch = [] := by
    rw [hrun]
    rcases final_flush_batch_nil now (runOps ops initState) with h | ⟨heq, hbe⟩
    · exact h
    · rw [heq, hbe]
  refine ⟨?_, hb, ?_⟩
  · simpa [initState] using runOps_flat ops (initState (V := V))
  · have hj := runOps_flat (ops ++ [WSOp.finalFlush now]) (initState (V := V))
    rw [hb] at hj
    simpa [initState, parsedRecords, parsedRecords_append, List.append_assoc] using hj

/-- log_processor.py: the LogProcessor instance state: _log_buffer,
_last_flush_time, the (ghost) history of flushed batches, and the
processor-local shutdown event. -/
structure LogProcessorState (V : Type) where
  buffer : List (RawRec V)
  lastFlush : Nat
  flushed : List (List (RawRec V))
  shutdown : Bool
deriving DecidableEq

namespace LogProcessor

/-- log_processor.py lines 28-39 (add_log_entry): append the parsed
entry to the buffer (the NDJSON file write is a side effect outside the
batching state). -/
def add_log_entry {V : Type} (e : RawRec V) (t : LogProcessorState V) :
    LogProcessorState V :=
  { t with buffer := t.buffer ++ [e] }

/-- log_processor.py lines 41-53 (process_buffer): if the buffer is
empty return; otherwise capture the whole buffer, clear it, reset the
flush time, and only then hand the captured batch to the analyzer
(recorded in the flushed history). -/
def process_buffer {V : Type} (now : Nat) (t : LogProcessorState V) :
    LogProcessorState V :=
  if t.buffer.isEmpty then t
  else { t with buffer := [], lastFlush := now, flushed := t.flushed ++ [t.buffer] }

/-- log_processor.py lines 70-76: one iteration of the per-second check
in the background processor task: flush when the buffer is full, or
when the flush interval has elapsed and the buffer is nonempty. -/
def background_processor {V : Type} (now : Nat) (t : LogProcessorState V) :
    LogProcessorState V :=
  if MAX_LOG_BATCH_SIZE ≤ t.buffer.length ∨
     (BATCH_FLUSH_INTERVAL_SECONDS ≤ now - t.lastFlush ∧ ¬ t.buffer.isEmpty)
  then process_buffer now t else t

/-- log_processor.py lines 89-116 (stop): set the processor shutdown
event, then process any remaining logs in the buffer before exiting. -/
def stop {V : Type} (now : Nat) (t : LogProcessorState V) : LogProcessorState V :=
  let t1 := { t with shutdown := true }
  if t1.buffer.isEmpty then t1 else process_buffer now t1

end LogProcessor

/-- C2: a size-based flush of the whole buffer occurs exactly when the
buffer length reaches MAX_LOG_BATCH_SIZE, regardless of elapsed time
(no time appears in the trigger): an add that brings the buffer to
maxSize flushes exactly that buffer and leaves it empty, an add that
leaves it below maxSize flushes nothing, and the LogProcessor tick
flushes a full buffer regardless of the interval while a below-size
buffer is not flushed on a size basis. -/
theorem size_trigger_flush_at_max {V : Type} (now : Nat)
    (m : List (Option (RawRec V))) (s : WSState V) (t : LogProcessorState V)
    (raw : RawRec V)
    (hload : json_loads m = some raw)
    (hpe : ¬ (processed_event raw).isEmpty)
    (hlt : s.batch.length < MAX_LOG_BATCH_SIZE) :
    (s.batch.length + 1 = MAX_LOG_BATCH_SIZE →
        handle_log_message now m s
          = { batch := [], lastFlush := now,
              flushed := s.flushed ++ [s.batch ++ [processed_event raw]] })
    ∧ (s.batch.length + 1 < MAX_LOG_BATCH_SIZE →
        handle_log_message now m s = { s with batch := s.batch ++ [processed_event raw] })
    ∧ (MAX_LOG_BATCH_SIZE ≤ t.buffer.length →
        LogProcessor.background_processor now t
          = { t with buffer := [], lastFlush := now, flushed := t.flushed ++ [t.buffer] })
    ∧ (t.buffer.length < MAX_LOG_BATCH_SIZE →
        now - t.lastFlush < BATCH_FLUSH_INTERVAL_SECONDS →
        LogProcessor.background_processor now t = t) := by
  refine ⟨?_, ?_, ?_, ?_⟩
  · intro hmax
    have hlen : MAX_LOG_BATCH_SIZE ≤ s.batch.length + 1 := hmax.ge
    have hne : ¬ ({ s with batch := s.batch ++ [processed_event raw] } : WSState V).batch.isEmpty := by
      simp
    simp [handle_log_message, hload, hpe, hlen, flush_of_nonempty now _ hne]
  · intro hlt1
    have hlen : ¬ MAX_LOG_BATCH_SIZE ≤ s.batch.length + 1 := Nat.not_le.mpr hlt1
    simp [handle_log_message, hload, hpe, hlen]
  · intro hfull
    have hne : ¬ t.buffer.isEmpty = true := by
      intro h
      rw [List.isEmpty_iff.mp h] at hfull
      simp [MAX_LOG_BATCH_SIZE] at hfull
    unfold LogProcessor.background_processor
    rw [if_pos (Or.inl hfull)]
    unfold LogProcessor.process_buffer
    rw [if_neg hne]
  · intro hsize htime
    have hcond : ¬ (MAX_LOG_BATCH_SIZE ≤ t.buffer.length ∨
        (BATCH_FLUSH_INTERVAL_SECONDS ≤ now - t.lastFlush ∧ ¬ t.buffer.isEmpty)) := by
      intro hor
      rcases hor with h1 | h2
      · exact absurd h1 (Nat.not_le.mpr hsize)
      · exact absurd h2.1 (Nat.not_le.mpr htime)
    unfold LogProcessor.background_processor
    rw [if_neg hcond]

/-- A concrete single-field record used by the concrete instances. -/
def wRec : RawRec String := [("ClientIP", "203.0.113.9")]

/-- A concrete frame holding exactly one well-formed JSON record. -/
def wMsg : List (Option (RawRec String)) := [some wRec]

/-- A concrete buffer state one record short of MAX_LOG_BATCH_SIZE. -/
def s14 : WSState String :=
  { batch := List.replicate 14 wRec, lastFlush := 0, flushed := [] }

/-- A concrete empty LogProcessor state. -/
def t0 : LogProcessorState String :=
  { buffer := [], lastFlush := 0, flushed := [], shutdown := false }

/-- Witness for C2: with 14 records buffered, the 15th add flushes the
whole buffer of 15 and leaves it empty. -/
theorem size_trigger_flush_at_max_witness :
    json_loads wMsg = some wRec
    ∧ ¬ (processed_event wRec).isEmpty
    ∧ s14.batch.length < MAX_LOG_BATCH_SIZE
    ∧ handle_log_message 7 wMsg s14
        = { batch := [], lastFlush := 7,
            flushed := [List.replicate 14 wRec ++ [processed_event wRec]] } := by
  refine ⟨rfl, by decide, by decide, ?_⟩
  have h := (size_trigger_flush_at_max 7 wMsg s14 t0 wRec rfl (by decide) (by decide)).1
      (by decide)
  simpa [s14] using h

/-- C3: with a nonempty buffer below maxSize and no further add, the
age check flushes the whole buffer exactly once as soon as the time
since the last flush reaches BATCH_FLUSH_INTERVAL_SECONDS (a second
tick after the flush is a no-op), no flush happens before the interval
has elapsed, and an empty buffer never triggers an age-based flush; the
same holds for the LogProcessor background tick. -/
theorem age_trigger_flush {V : Type} (now later : Nat) (s : WSState V)
    (t : LogProcessorState V)
    (hw : ¬ s.batch.isEmpty) (ht : ¬ t.buffer.isEmpty)
    (hlen : t.buffer.length < MAX_LOG_BATCH_SIZE) :
    (BATCH_FLUSH_INTERVAL_SECONDS ≤ now - s.lastFlush →
        timeout_tick now s
          = { batch := [], lastFlush := now, flushed := s.flushed ++ [s.batch] }
        ∧ timeout_tick later (timeout_tick now s) = timeout_tick now s)
    ∧ (now - s.lastFlush < BATCH_FLUSH_INTERVAL_SECONDS → timeout_tick now s = s)
    ∧ (BATCH_FLUSH_INTERVAL_SECONDS ≤ now - t.lastFlush →
        LogProcessor.background_processor now t
          = { t with buffer := [], lastFlush := now, flushed := t.flushed ++ [t.buffer] })
    ∧ (now - t.lastFlush < BATCH_FLUSH_INTERVAL_SECONDS →
        LogProcessor.background_processor now t = t)
    ∧ (∀ s2 : WSState V, s2.batch.isEmpty → timeout_tick now s2 = s2)
    ∧ (∀ t2 : LogProcessorState V, t2.buffer.isEmpty →
        LogProcessor.background_processor now t2 = t2) := by
  refine ⟨?_, ?_, ?_, ?_, ?_, ?_⟩
  · intro htime
    have hflush : timeout_tick now s
        = { batch := [], lastFlush := now, flushed := s.flushed ++ [s.batch] } := by
      simp [timeout_tick, hw, htime, flush_of_nonempty now s hw]
    refine ⟨hflush, ?_⟩
    rw [hflush]
    simp [timeout_tick]
  · intro htime
    have hcond : ¬ (¬ s.batch.isEmpty = true ∧ BATCH_FLUSH_INTERVAL_SECONDS ≤ now - s.lastFlush) :=
      fun hc => absurd hc.2 (Nat.not_le.mpr htime)
    unfold timeout_tick
    rw [if_neg hcond]
  · intro htime
    unfold LogProcessor.background_processor
    rw [if_pos (Or.inr ⟨htime, ht⟩)]
    unfold LogProcessor.process_buffer
    rw [if_neg ht]
  · intro htime
    have hcond : ¬ (MAX_LOG_BATCH_SIZE ≤ t.buffer.length ∨
        (BATCH_FLUSH_INTERVAL_SECONDS ≤ now - t.lastFlush ∧ ¬ t.buffer.isEmpty)) := by
      intro hor
      rcases hor with h1 | h2
      · exact absurd h1 (Nat.not_le.mpr hlen)
      · exact absurd h2.1 (Nat.not_le.mpr htime)
    unfold LogProcessor.background_processor
    rw [if_neg hcond]
  · intro s2 h2
    have hcond : ¬ (¬ s2.batch.isEmpty = true ∧
        BATCH_FLUSH_INTERVAL_SECONDS ≤ now - s2.lastFlush) :=
      fun hc => absurd h2 hc.1
    unfold timeout_tick
    rw [if_neg hcond]
  · intro t2 h2
    have hcond : ¬ (MAX_LOG_BATCH_SIZE ≤ t2.buffer.length ∨
        (BATCH_FLUSH_INTERVAL_SECONDS ≤ now - t2.lastFlush ∧ ¬ t2.buffer.isEmpty)) := by
      intro hor
      rcases hor with h1 | hc
      · rw [List.isEmpty_iff.mp h2] at h1
        simp [MAX_LOG_BATCH_SIZE] at h1
      · exact absurd h2 hc.2
    unfold LogProcessor.background_processor
    rw [if_neg hcond]

/-- A concrete one-record websocket buffer with last flush at time 0. -/
def sAge : WSState String := { batch := [wRec], lastFlush := 0, flushed := [] }

/-- A concrete one-record LogProcessor buffer with last flush at time 0. -/
def tAge : LogProcessorState String :=
  { buffer := [wRec], lastFlush := 0, flushed := [], shutdown := false }

/-- Witness for C3: one buffered record flushes on the age check at
time 20 (interval 15 elapsed) on both batching paths. -/
theorem age_trigger_flush_witness :
    ¬ sAge.batch.isEmpty ∧ ¬ tAge.buffer.isEmpty
    ∧ tAge.buffer.length < MAX_LOG_BATCH_SIZE
    ∧ timeout_tick 20 sAge = { batch := [], lastFlush := 20, flushed := [[wRec]] }
    ∧ LogProcessor.background_processor 20 tAge
        = { buffer := [], lastFlush := 20, flushed := [[wRec]], shutdown := false } := by
  refine ⟨by decide, by decide, by decide, ?_, ?_⟩
  · have h := ((age_trigger_flush 20 99 sAge tAge (by decide) (by decide) (by decide)).1
        (by decide)).1
    simpa [sAge] using h
  · have h := (age_trigger_flush 20 99 sAge tAge (by decide) (by decide) (by decide)).2.2.1
        (by decide)
    simpa [tAge] using h

/-- The frame handling that C4 describes, following the words of the
spec rather than the source: split the frame on newlines, parse each
line independently, and forward the whitelist projection of every
well-formed line while skipping malformed lines individually. Stated
only for comparison with handle_log_message, which embeds the source. -/
def frame_records_per_spec {V : Type} (m : List (Option (RawRec V))) : List (RawRec V) :=
  ((m.filterMap id).map processed_event).filter (fun r => !r.isEmpty)

/-- First well-formed record of the two-line counterexample frame. -/
def cxRecA : RawRec String := [("ClientIP", "198.51.100.1")]

/-- Second well-formed record of the two-line counterexample frame. -/
def cxRecB : RawRec String := [("ClientIP", "198.51.100.2")]

/-- A frame of two newline-delimited well-formed JSON records. -/
def cxFrame : List (Option (RawRec String)) := [some cxRecA, some cxRecB]

/-- C4 counterexample: a frame of two newline-delimited well-formed
JSON records is not split per line by handle_log_message: json.loads
fails on the whole frame (extra data after the first document) and zero
records reach the batch, whereas the per-line reading of the claim
would forward both well-formed lines. -/
theorem frame_newline_split_counterexample :
    json_loads cxFrame = none
    ∧ handle_log_message 0 cxFrame (initState (V := String)) = initState
    ∧ (handle_log_message 0 cxFrame (initState (V := String))).batch = []
    ∧ frame_records_per_spec cxFrame = [cxRecA, cxRecB] := by
  refine ⟨rfl, rfl, rfl, ?_⟩
  decide

/-- C4 amended: handle_log_message parses each received frame as a
single JSON document: a frame that fails to parse (a malformed frame,
and in particular any frame carrying several newline-delimited records)
is logged and skipped in its entirety, contributing no records, without
affecting the batch state and without aborting the processing of later
frames, while a frame that is exactly one well-formed record is parsed
successfully. -/
theorem frame_parsed_as_single_json {V : Type} (now now2 : Nat)
    (m m2 : List (Option (RawRec V))) (s : WSState V)
    (hbad : json_loads m = none) :
    handle_log_message now m s = s
    ∧ runOps [WSOp.msg now m, WSOp.msg now2 m2] s = handle_log_message now2 m2 s
    ∧ (∀ r1 r2 : RawRec V, json_loads [some r1, some r2] = none)
    ∧ (∀ raw : RawRec V, json_loads [some raw] = some raw)
    ∧ msgRecords m = [] := by
  have h1 : handle_log_message now m s = s := by simp [handle_log_message, hbad]
  refine ⟨h1, ?_, fun r1 r2 => rfl, fun raw => rfl, ?_⟩
  · simp [runOps, h1]
  · simp [msgRecords, hbad]

/-- Witness for the amended C4: the two-record frame is skipped whole,
leaving the state untouched. -/
theorem frame_parsed_as_single_json_witness :
    json_loads cxFrame = none ∧ handle_log_message 3 cxFrame sAge = sAge := by
  exact ⟨rfl, (frame_parsed_as_single_json 3 4 cxFrame cxFrame sAge rfl).1⟩

/-- One structured error object in the control-API response; the code
field is optional, matching err.get with a code key. -/
structure ApiError where
  code : Option Int
deriving DecidableEq

/-- The observable outcome of one session-creation request in
cloudflare_client.py: either a parsed JSON response (success flag,
optional result.destination_conf, errors array) or a raised exception
(HTTP status error, client error, timeout, JSON decode failure or any
other), all of which the code catches. -/
inductive ControlOutcome where
  | response (success : Bool) (conf : Option String) (errors : List ApiError)
  | exn
deriving DecidableEq

/-- cloudflare_client.py line 65: the session id is the trailing path
segment of the websocket URL. -/
def session_id_from_url (ws : String) : String :=
  (ws.splitOn "/").getLastD ""

/-- One iteration of the while-True loop of create_instant_log_session
(cloudflare_client.py lines 54-87): some v means the function returns
v, none means the iteration falls through to the retry sleep. The
success branch requires a truthy success flag and a truthy (present and
nonempty) destination_conf. -/
def session_attempt_result (o : ControlOutcome) : Option (String × String) :=
  match o with
  | ControlOutcome.response success conf _ =>
      match success, conf with
      | true, some ws => if ws.isEmpty then none else some (ws, session_id_from_url ws)
      | _, _ => none
  | ControlOutcome.exn => none

/-- Whether the iteration prints the distinct session-already-active
message (cloudflare_client.py lines 72-73): only the structured-error
branch checks the error codes, and only when some error has code
1303. -/
def session_attempt_logs_1303 (o : ControlOutcome) : Bool :=
  match o with
  | ControlOutcome.response success conf errors =>
      match success, conf with
      | true, some ws =>
          if ws.isEmpty then errors.any (fun e => e.code == some 1303) else false
      | _, _ => errors.any (fun e => e.code == some 1303)
  | ControlOutcome.exn => false

/-- The retry loop of create_instant_log_session over a finite prefix
of the sequence of request outcomes: return the first successful
attempt; every failed attempt sleeps RETRY_DELAY_SECONDS and retries.
An exhausted prefix models a loop still retrying: only success or
external cancellation ends it. -/
def create_instant_log_session : List ControlOutcome → Option (String × String)
  | [] => none
  | o :: rest =>
      match session_attempt_result o with
      | some v => some v
      | none => create_instant_log_session rest

/-- C5: an outcome that produces the distinct 1303 log neither raises
nor returns: its attempt yields no result and the loop proceeds to the
next attempt after the retry delay; every other non-successful attempt
retries the same way, and the loop can only ever end on a successful
attempt. -/
theorem session_conflict_1303_retries (o : ControlOutcome)
    (outs : List ControlOutcome)
    (h1303 : session_attempt_logs_1303 o = true) :
    session_attempt_result o = none
    ∧ create_instant_log_session (o :: outs) = create_instant_log_session outs
    ∧ (∀ (o2 : ControlOutcome) (outs2 : List ControlOutcome),
        session_attempt_result o2 = none →
        create_instant_log_session (o2 :: outs2) = create_instant_log_session outs2)
    ∧ (∀ (outs3 : List ControlOutcome) (v : String × String),
        create_instant_log_session outs3 = some v →
        ∃ o3 ∈ outs3, session_attempt_result o3 = some v) := by
  have hnone : session_attempt_result o = none := by
    cases o with
    | exn => simp [session_attempt_logs_1303] at h1303
    | response success conf errors =>
      cases success with
      | false => rfl
      | true =>
        cases conf with
        | none => rfl
        | some ws =>
          by_cases hws : ws.isEmpty
          · simp [session_attempt_result, hws]
          · simp [session_attempt_logs_1303, hws] at h1303
  refine ⟨hnone, ?_, ?_, ?_⟩
  · simp [create_instant_log_session, hnone]
  · intro o2 outs2 h2
    simp [create_instant_log_session, h2]
  · intro outs3 v
    induction outs3 with
    | nil =>
      intro h
      simp [create_instant_log_session] at h
    | cons o3 rest ih =>
      intro h
      cases hres : session_attempt_result o3 with
      | some w =>
        simp [create_instant_log_session, hres] at h
        exact ⟨o3, List.mem_cons_self o3 rest, by rw [hres, h]⟩
      | none =>
        simp [create_instant_log_session, hres] at h
        obtain ⟨o4, hmem, hr⟩ := ih h
        exact ⟨o4, List.mem_cons_of_mem o3 hmem, hr⟩

/-- A concrete control-API response carrying error code 1303. -/
def cx1303 : ControlOutcome :=
  ControlOutcome.response false none [{ code := some 1303 }]

/-- Witness for C5: the 1303 response logs distinctly, returns nothing
and leaves the loop retrying. -/
theorem session_conflict_1303_retries_witness :
    session_attempt_logs_1303 cx1303 = true
    ∧ session_attempt_result cx1303 = none
    ∧ create_instant_log_session [cx1303] = none := by
  refine ⟨rfl, ?_, ?_⟩
  · exact (session_conflict_1303_retries cx1303 [] rfl).1
  · have h := (session_conflict_1303_retries cx1303 [] rfl).2.1
    simpa [create_instant_log_session] using h

/-- The renewal interval in seconds: timedelta(minutes=55) compared
against the wall-clock time since connection start. -/
def SESSION_RENEWAL_INTERVAL_SECONDS : Nat := SESSION_RENEWAL_INTERVAL_MINUTES * 60

/-- What one receive attempt of the websocket loop can observe: a text
frame, a receive timeout (no message within one second), or the remote
side closing the connection normally or with an error. -/
inductive RecvEvent (V : Type) where
  | frame (m : List (Option (RawRec V)))
  | timeout
  | closedOk
  | closedErr
deriving DecidableEq

/-- One iteration of the receive loop as seen from outside: the current
wall-clock time at the top of the iteration, whether the shutdown event
is set, and what the receive attempt observes. -/
structure LoopEvent (V : Type) where
  now : Nat
  shutdown : Bool
  ev : RecvEvent V
deriving DecidableEq

/-- How the receive loop of _connect_and_listen ends. -/
inductive LoopExit where
  | shutdownRequested
  | renewal
  | remoteClosedOk
  | remoteClosedErr
  | streamEnded
deriving DecidableEq

/-- websocket_handler.py lines 326-357: the receive loop of
_connect_and_listen: each iteration first checks the shutdown event,
then checks whether the time since connection start strictly exceeds
the renewal interval (breaking out of the loop for renewal), and only
then receives: a frame is handed to handle_log_message, a receive
timeout runs the age-based flush check, a remote close breaks out of
the loop. An exhausted event list models a loop still running. -/
def connect_loop {V : Type} (start : Nat) :
    List (LoopEvent V) → WSState V → WSState V × LoopExit
  | [], s => (s, LoopExit.streamEnded)
  | e :: rest, s =>
      if e.shutdown then (s, LoopExit.shutdownRequested)
      else if SESSION_RENEWAL_INTERVAL_SECONDS < e.now - start then (s, LoopExit.renewal)
      else
        match e.ev with
        | RecvEvent.frame m => connect_loop start rest (handle_log_message e.now m s)
        | RecvEvent.timeout => connect_loop start rest (timeout_tick e.now s)
        | RecvEvent.closedOk => (s, LoopExit.remoteClosedOk)
        | RecvEvent.closedErr => (s, LoopExit.remoteClosedErr)

/-- websocket_handler.py lines 378-393: the finally block closes the
connection with close code 1000 whenever it is still open; after a
remote close it is already closed and no close is issued. -/
def cleanup_close_code : LoopExit → Option Nat
  | LoopExit.remoteClosedOk => none
  | LoopExit.remoteClosedErr => none
  | _ => some 1000

/-- Receive events that represent continuous incoming traffic: frames
and bare receive timeouts, as opposed to a remote close. -/
def is_traffic {V : Type} : RecvEvent V → Bool
  | RecvEvent.frame _ => true
  | RecvEvent.timeout => true
  | RecvEvent.closedOk => false
  | RecvEvent.closedErr => false

/-- C6 counterexample: with the connection opened at time 0 and a frame
arriving with elapsed time exactly SESSION_RENEWAL_INTERVAL (3300 s),
the strict greater-than check does not end the session: the frame is
still received and processed, so a connection that has been open for at
least (here exactly) the renewal interval does not proactively end its
receive loop. -/
theorem renewal_at_exact_interval_counterexample :
    SESSION_RENEWAL_INTERVAL_SECONDS ≤ 3300 - 0
    ∧ (connect_loop 0 [{ now := 3300, shutdown := false, ev := RecvEvent.frame wMsg }]
        (initState (V := String))).2 ≠ LoopExit.renewal
    ∧ (connect_loop 0 [{ now := 3300, shutdown := false, ev := RecvEvent.frame wMsg }]
        (initState (V := String))).1.batch = [processed_event wRec] := by
  refine ⟨by decide, by decide, by decide⟩

lemma connect_loop_renewal {V : Type} (start : Nat) :
    ∀ (evs : List (LoopEvent V)) (s : WSState V),
      (∀ e ∈ evs, e.shutdown = false) →
      (∀ e ∈ evs, is_traffic e.ev = true) →
      (∃ e ∈ evs, SESSION_RENEWAL_INTERVAL_SECONDS < e.now - start) →
      (connect_loop start evs s).2 = LoopExit.renewal := by
  intro evs
  induction evs with
  | nil =>
    intro s _ _ hdeadline
    obtain ⟨e, hmem, _⟩ := hdeadline
    exact absurd hmem (List.not_mem_nil e)
  | cons e rest ih =>
    intro s hshut htraffic hdeadline
    have hs : e.shutdown = false := hshut e (List.mem_cons_self e rest)
    by_cases hd : SESSION_RENEWAL_INTERVAL_SECONDS < e.now - start
    · simp [connect_loop, hs, hd]
    · have hrest : ∃ e0 ∈ rest, SESSION_RENEWAL_INTERVAL_SECONDS < e0.now - start := by
        obtain ⟨e0, hmem, hgt⟩ := hdeadline
        rcases List.mem_cons.mp hmem with heq | hm
        · rw [heq] at hgt
          exact absurd hgt hd
        · exact ⟨e0, hm, hgt⟩
      have hshut2 : ∀ e2 ∈ rest, e2.shutdown = false :=
        fun e2 h2 => hshut e2 (List.mem_cons_of_mem e h2)
      have htraffic2 : ∀ e2 ∈ rest, is_traffic e2.ev = true :=
        fun e2 h2 => htraffic e2 (List.mem_cons_of_mem e h2)
      cases hev : e.ev with
      | frame m =>
        simpa [connect_loop, hs, hd, hev]
          using ih (handle_log_message e.now m s) hshut2 htraffic2 hrest
      | timeout =>
        simpa [connect_loop, hs, hd, hev]
          using ih (timeout_tick e.now s) hshut2 htraffic2 hrest
      | closedOk =>
        have hcontra := htraffic e (List.mem_cons_self e rest)
        rw [hev] at hcontra
        simp [is_traffic] at hcontra
      | closedErr =>
        have hcontra := htraffic e (List.mem_cons_self e rest)
        rw [hev] at hcontra
        simp [is_traffic] at hcontra

/-- C6 amended: the renewal deadline is re-checked at the top of every
loop iteration, including after each received frame, so under
continuous traffic (frames and receive timeouts only, no shutdown, no
remote close) the receive loop ends with a renewal exit as soon as an
iteration starts with elapsed time strictly greater than
SESSION_RENEWAL_INTERVAL, and the cleanup closes the connection with
the normal close code 1000: renewal is never starved by load. -/
theorem renewal_not_starved {V : Type} (start : Nat) (evs : List (LoopEvent V))
    (s : WSState V)
    (hshut : ∀ e ∈ evs, e.shutdown = false)
    (htraffic : ∀ e ∈ evs, is_traffic e.ev = true)
    (hdeadline : ∃ e ∈ evs, SESSION_RENEWAL_INTERVAL_SECONDS < e.now - start) :
    (connect_loop start evs s).2 = LoopExit.renewal
    ∧ cleanup_close_code LoopExit.renewal = some 1000 :=
  ⟨connect_loop_renewal start evs s hshut htraffic hdeadline, rfl⟩

/-- A concrete continuous-traffic event list crossing the renewal
deadline on its second iteration. -/
def cxRenewEvs : List (LoopEvent String) :=
  [{ now := 1, shutdown := false, ev := RecvEvent.frame wMsg },
   { now := 3301, shutdown := false, ev := RecvEvent.frame wMsg }]

/-- Witness for the amended C6: once elapsed time strictly exceeds the
renewal interval, the loop exits for renewal even with frames still
arriving. -/
theorem renewal_not_starved_witness :
    (∀ e ∈ cxRenewEvs, e.shutdown = false)
    ∧ (∀ e ∈ cxRenewEvs, is_traffic e.ev = true)
    ∧ (∃ e ∈ cxRenewEvs, SESSION_RENEWAL_INTERVAL_SECONDS < e.now - 0)
    ∧ (connect_loop 0 cxRenewEvs (initState (V := String))).2 = LoopExit.renewal := by
  refine ⟨by decide, by decide, by decide, ?_⟩
  exact (renewal_not_starved 0 cxRenewEvs initState (by decide) (by decide) (by decide)).1

/-- C7: on shutdown with a nonempty buffer, the teardown performs
exactly one final flush containing the entire buffered record list,
bypassing the size and age triggers (no size or time hypothesis is
needed), and leaves the buffer empty; with an empty buffer no final
batch is produced, so nothing is lost and nothing is fabricated. This
covers both the listener finally-block flush and LogProcessor.stop. -/
theorem shutdown_final_flush {V : Type} (now : Nat) (s : WSState V)
    (t : LogProcessorState V)
    (hs : ¬ s.batch.isEmpty) (ht : ¬ t.buffer.isEmpty) :
    final_flush now s = { batch := [], lastFlush := now, flushed := s.flushed ++ [s.batch] }
    ∧ LogProcessor.stop now t
        = { buffer := [], lastFlush := now, flushed := t.flushed ++ [t.buffer],
            shutdown := true }
    ∧ (∀ s2 : WSState V, s2.batch.isEmpty → final_flush now s2 = s2)
    ∧ (∀ t2 : LogProcessorState V, t2.buffer.isEmpty →
        LogProcessor.stop now t2 = { t2 with shutdown := true }) := by
  refine ⟨?_, ?_, ?_, ?_⟩
  · unfold final_flush
    rw [if_neg hs]
    exact flush_of_nonempty now s hs
  · simp [LogProcessor.stop, LogProcessor.process_buffer, ht]
  · intro s2 h2
    simp [final_flush, h2]
  · intro t2 h2
    simp [LogProcessor.stop, h2]

/-- Witness for C7: a one-record buffer is drained into exactly one
final batch on both teardown paths. -/
theorem shutdown_final_flush_witness :
    ¬ sAge.batch.isEmpty ∧ ¬ tAge.buffer.isEmpty
    ∧ final_flush 5 sAge = { batch := [], lastFlush := 5, flushed := [[wRec]] }
    ∧ LogProcessor.stop 5 tAge
        = { buffer := [], lastFlush := 5, flushed := [[wRec]], shutdown := true } := by
  refine ⟨by decide, by decide, ?_, ?_⟩
  · have h := (shutdown_final_flush 5 sAge tAge (by decide) (by decide)).1
    simpa [sAge] using h
  · have h := (shutdown_final_flush 5 sAge tAge (by decide) (by decide)).2.1
    simpa [tAge] using h

/-- main_logger.py: the process-level state touched by the shutdown
signal handler: the shutdown event, together with how many times each
teardown step has run (stopping the log processor, cancelling the main
tasks, closing the aiohttp session). -/
structure AppState where
  shutdownSet : Bool
  lpStops : Nat
  taskCancelRounds : Nat
  sessionCloses : Nat
deriving DecidableEq

/-- main_logger.py lines 16-53: the shutdown signal handler: if the
shutdown event is already set, log and return without re-running the
teardown; otherwise set the event and run the teardown sequence once:
stop the log processor, cancel the main tasks, close the Cloudflare
session manager. -/
def handle_shutdown_signal (s : AppState) : AppState :=
  if s.shutdownSet then s
  else { shutdownSet := true, lpStops := s.lpStops + 1,
         taskCancelRounds := s.taskCancelRounds + 1,
         sessionCloses := s.sessionCloses + 1 }

/-- C8: the shutdown handler is idempotent: a second invocation is the
identity on the resulting state, the cancellation signal only ever
moves from unset to set (it is set after any invocation, and an
invocation on an already-set state changes nothing), and the teardown
steps run exactly once, on the invocation that sets the signal. -/
theorem shutdown_signal_idempotent (s : AppState) :
    handle_shutdown_signal (handle_shutdown_signal s) = handle_shutdown_signal s
    ∧ (handle_shutdown_signal s).shutdownSet = true
    ∧ (s.shutdownSet = true → handle_shutdown_signal s = s)
    ∧ (s.shutdownSet = false →
        (handle_shutdown_signal s).lpStops = s.lpStops + 1
        ∧ (handle_shutdown_signal s).taskCancelRounds = s.taskCancelRounds + 1
        ∧ (handle_shutdown_signal s).sessionCloses = s.sessionCloses + 1) := by
  by_cases h : s.shutdownSet = true
  · have he : handle_shutdown_signal s = s := by
      unfold handle_shutdown_signal
      rw [if_pos h]
    refine ⟨by rw [he, he], by rw [he]; exact h, fun _ => he, ?_⟩
    intro hf
    rw [hf] at h
    exact absurd h (by simp)
  · have he : handle_shutdown_signal s
        = { shutdownSet := true, lpStops := s.lpStops + 1,
            taskCancelRounds := s.taskCancelRounds + 1,
            sessionCloses := s.sessionCloses + 1 } := by
      unfold handle_shutdown_signal
      rw [if_neg h]
    refine ⟨?_, by rw [he], fun htrue => absurd htrue h, ?_⟩
    · rw [he]
      unfold handle_shutdown_signal
      rw [if_pos rfl]
    · intro _
      rw [he]
      exact ⟨rfl, rfl, rfl⟩

/-- A fresh process state: signal unset, no teardown step run yet. -/
def app0 : AppState :=
  { shutdownSet := false, lpStops := 0, taskCancelRounds := 0, sessionCloses := 0 }

/-- Witness for C8: from a fresh state, one call runs the teardown
once and a second call changes nothing. -/
theorem shutdown_signal_idempotent_witness :
    handle_shutdown_signal (handle_shutdown_signal app0) = handle_shutdown_signal app0
    ∧ (handle_shutdown_signal app0).lpStops = 1
    ∧ (handle_shutdown_signal (handle_shutdown_signal app0)).lpStops = 1 := by
  refine ⟨(shutdown_signal_idempotent app0).1, ?_, ?_⟩
  · exact ((shutdown_signal_idempotent app0).2.2.2 rfl).1
  · rw [(shutdown_signal_idempotent app0).1]
    exact ((shutdown_signal_idempotent app0).2.2.2 rfl).1

/-- One finding reported through the report_suspicious_activity tool
call schema (websocket_handler.py); every field is optional on the
consumer side since it is read with dict.get. -/
structure Finding where
  entity_type : Option String
  entity_value : Option String
  reason : Option String
  suggested_action : Option String
deriving DecidableEq

/-- websocket_handler.py line 136: max_retries = 3. -/
def gemini_max_retries : Nat := 3

/-- The observable outcome of one Gemini API call inside the retry loop
of analyze_batch_with_ai. -/
inductive GeminiOutcome where
  | toolCall (findings : List Finding)
  | noToolCall
  | internalServerError
  | resourceExhausted
  | otherError
deriving DecidableEq

/-- Whether an outcome is a successful tool call. -/
def is_tool_call : GeminiOutcome → Bool
  | GeminiOutcome.toolCall _ => true
  | _ => false

/-- websocket_handler.py lines 136-218: the retry loop of
analyze_batch_with_ai over the successive API-call outcomes, from the
given attempt index: a tool call returns its findings; a response
without the expected tool call returns empty findings; a 429 quota
error returns empty findings with no further retries; a 500 or any
other exception retries (after a backoff sleep) while attempts remain
and otherwise returns empty findings; a completed loop returns empty
findings. No error is ever propagated. -/
def gemini_attempt_loop (attempt : Nat) : List GeminiOutcome → List Finding
  | [] => []
  | o :: rest =>
      match o with
      | GeminiOutcome.toolCall f => f
      | GeminiOutcome.noToolCall => []
      | GeminiOutcome.resourceExhausted => []
      | GeminiOutcome.internalServerError =>
          if attempt < gemini_max_retries - 1 then gemini_attempt_loop (attempt + 1) rest
          else []
      | GeminiOutcome.otherError =>
          if attempt < gemini_max_retries - 1 then gemini_attempt_loop (attempt + 1) rest
          else []

/-- websocket_handler.py lines 74-81 and 136-218
(analyze_batch_with_ai): a disabled Gemini configuration or an empty
batch short-circuits to empty findings; otherwise the retry loop runs
from attempt 0. -/
def analyze_batch_with_ai {V : Type} (enabled : Bool) (batch : List (RawRec V))
    (outs : List GeminiOutcome) : List Finding :=
  if !enabled then []
  else if batch.isEmpty then []
  else gemini_attempt_loop 0 outs

/-- websocket_handler.py lines 267-276 once more, now together with the
analyzer call on the captured batch: the buffer swap happens before the
dispatch, so the batcher state transition does not depend on the
analyzer outcome. -/
def process_and_flush_full {V : Type} (now : Nat) (enabled : Bool)
    (outs : List GeminiOutcome) (s : WSState V) : WSState V × List Finding :=
  if s.batch.isEmpty then (s, [])
  else ({ batch := [], lastFlush := now, flushed := s.flushed ++ [s.batch] },
        analyze_batch_with_ai enabled s.batch outs)

/-- One threat as returned through the report_threats tool of
gemini_client.py. -/
structure Threat where
  client_ip : Option String
  threat_type : Option String
  description : Option String
deriving DecidableEq

/-- The observable outcome of the single chat call inside
GeminiClient.analyze_logs. -/
inductive ChatOutcome where
  | toolCall (threats : List Threat)
  | otherFirstPart
  | emptyResponse
  | exn
deriving DecidableEq

/-- gemini_client.py lines 70-145 (analyze_logs): an empty batch
returns an empty list; a response whose first part is the report_threats
tool call returns its threats; any other response shape returns an
empty list; any exception is caught and logged and an empty list is
returned instead of the error propagating. -/
def analyze_logs {V : Type} (entries : List (RawRec V)) (o : ChatOutcome) : List Threat :=
  if entries.isEmpty then []
  else
    match o with
    | ChatOutcome.toolCall t => t
    | ChatOutcome.otherFirstPart => []
    | ChatOutcome.emptyResponse => []
    | ChatOutcome.exn => []

lemma gemini_loop_fail_empty :
    ∀ (outs : List GeminiOutcome),
      (∀ o ∈ outs, is_tool_call o = false) →
      ∀ attempt, gemini_attempt_loop attempt outs = [] := by
  intro outs
  induction outs with
  | nil =>
    intro _ attempt
    rfl
  | cons o rest ih =>
    intro hf attempt
    have hrest : ∀ o2 ∈ rest, is_tool_call o2 = false :=
      fun o2 h2 => hf o2 (List.mem_cons_of_mem o h2)
    cases o with
    | toolCall f =>
      have hcontra := hf (GeminiOutcome.toolCall f) (List.mem_cons_self _ rest)
      simp [is_tool_call] at hcontra
    | noToolCall => rfl
    | resourceExhausted => rfl
    | internalServerError =>
      show (if attempt < gemini_max_retries - 1
            then gemini_attempt_loop (attempt + 1) rest else []) = []
      split
      · exact ih hrest (attempt + 1)
      · rfl
    | otherError =>
      show (if attempt < gemini_max_retries - 1
            then gemini_attempt_loop (attempt + 1) rest else []) = []
      split
      · exact ih hrest (attempt + 1)
      · rfl

/-- C9: when the analyzer fails during a flush (no successful tool call
in any attempt: timeouts, malformed or empty responses, quota errors,
server errors), the analyzer call returns empty findings instead of
propagating the error, and the flushed batch is dropped: the batcher
state after the flush is exactly that of a plain flush whatever the
analyzer outcomes were, so the batch is never requeued into the buffer;
the GeminiClient variant likewise returns an empty threat list on an
exception. -/
theorem analyzer_failure_drops_batch {V : Type} (now : Nat) (enabled : Bool)
    (s : WSState V) (outs : List GeminiOutcome)
    (hfail : ∀ o ∈ outs, is_tool_call o = false) :
    (∀ attempt, gemini_attempt_loop attempt outs = [])
    ∧ analyze_batch_with_ai enabled s.batch outs = []
    ∧ (process_and_flush_full now enabled outs s).1 = process_and_flush_batch now s
    ∧ (process_and_flush_full now enabled outs s).2 = []
    ∧ (∀ entries : List (RawRec V), analyze_logs entries ChatOutcome.exn = []) := by
  have hzero := gemini_loop_fail_empty outs hfail
  have hana : analyze_batch_with_ai enabled s.batch outs = [] := by
    unfold analyze_batch_with_ai
    split
    · rfl
    · split
      · rfl
      · exact hzero 0
  refine ⟨hzero, hana, ?_, ?_, ?_⟩
  · by_cases hc : s.batch.isEmpty <;>
      simp [process_and_flush_full, process_and_flush_batch, hc]
  · by_cases hc : s.batch.isEmpty <;>
      simp [process_and_flush_full, hc, hana]
  · intro entries
    by_cases hc : entries.isEmpty <;> simp [analyze_logs, hc]

/-- A concrete all-failure outcome sequence: a 500, a generic error,
then a quota error. -/
def cxFailOuts : List GeminiOutcome :=
  [GeminiOutcome.internalServerError, GeminiOutcome.otherError,
   GeminiOutcome.resourceExhausted]

/-- Witness for C9: after three failed attempts the flush still swaps
the buffer exactly as a plain flush does and yields empty findings. -/
theorem analyzer_failure_drops_batch_witness :
    (∀ o ∈ cxFailOuts, is_tool_call o = false)
    ∧ (process_and_flush_full 9 true cxFailOuts sAge).1 = process_and_flush_batch 9 sAge
    ∧ (process_and_flush_full 9 true cxFailOuts sAge).2 = [] := by
  refine ⟨by decide, ?_, ?_⟩
  · exact (analyzer_failure_drops_batch 9 true sAge cxFailOuts (by decide)).2.2.1
  · exact (analyzer_failure_drops_batch 9 true sAge cxFailOuts (by decide)).2.2.2.1

/-- websocket_handler.py line 237: the allowed WAF actions. -/
def allowed_waf_actions : List String :=
  ["block", "challenge", "managed_challenge", "js_challenge"]

/-- The str.lower call applied to the suggested action: lower-case
every character (written over the character list, which is the same
function as String.toLower). -/
def str_lower (s : String) : String := String.mk (s.data.map Char.toLower)

/-- websocket_handler.py lines 236-238: the action applied for one
finding: lower-case the suggested action (defaulting to challenge when
the key is missing) and coerce anything outside the allowed set to
challenge. -/
def action_to_take (f : Finding) : String :=
  let a := str_lower (f.suggested_action.getD "challenge")
  if allowed_waf_actions.contains a then a else "challenge"

/-- websocket_handler.py lines 221-262 (handle_ai_analysis_results),
restricted to its observable action choices: the action applied for
each finding, in order. -/
def handle_ai_analysis_results (findings : List Finding) : List String :=
  findings.map action_to_take

/-- A finding with no suggested action. -/
def findingNoAction : Finding :=
  { entity_type := none, entity_value := none, reason := none, suggested_action := none }

/-- A finding suggesting BLOCK in upper case. -/
def findingUpperBlock : Finding :=
  { entity_type := none, entity_value := none, reason := none,
    suggested_action := some "BLOCK" }

/-- A finding suggesting an action outside the allowed set. -/
def findingBogus : Finding :=
  { entity_type := none, entity_value := none, reason := none,
    suggested_action := some "delete_everything" }

/-- C10: the action applied for every finding is always one of block,
challenge, managed_challenge, js_challenge: the suggested action is
lower-cased, a missing suggestion defaults to challenge, and a
suggestion outside the allowed set is coerced to challenge, so no
malformed suggestion can select an action outside the set. -/
theorem applied_action_in_allowed_set (f : Finding) :
    allowed_waf_actions.contains (action_to_take f) = true
    ∧ action_to_take f ∈ allowed_waf_actions
    ∧ (∀ findings : List Finding,
        (handle_ai_analysis_results findings).all
          (fun a => allowed_waf_actions.contains a) = true)
    ∧ action_to_take findingNoAction = "challenge"
    ∧ action_to_take findingUpperBlock = "block"
    ∧ action_to_take findingBogus = "challenge" := by
  have hmain : ∀ g : Finding, allowed_waf_actions.contains (action_to_take g) = true := by
    intro g
    unfold action_to_take
    by_cases hc : allowed_waf_actions.contains
        (str_lower (g.suggested_action.getD "challenge")) = true
    · rw [if_pos hc]
      exact hc
    · rw [if_neg hc]
      decide
  refine ⟨hmain f, ?_, ?_, by decide, by decide, by decide⟩
  · have h := hmain f
    simpa using h
  · intro findings
    rw [List.all_eq_true]
    intro a ha
    obtain ⟨g, hg, hga⟩ := List.mem_map.mp ha
    rw [← hga]
    exact hmain g

end ThreatDetection
